import Mathlib

/-!
Verification of the `ray_rllib_minicourse` repository.

Part 1 embeds the `GuessNumber` environment from
`src/lesson_1/1-gymnasium_environment.ipynb`.
Part 2 embeds the PPO loss computation `PPOTorchLearner.compute_loss_for_module`
from the lesson-4 learner notebook.

Randomness (`np.random.randint(100)`) is modelled by passing the drawn number
as an explicit argument; tensors are modelled as lists of reals, with the
elementwise torch operations modelled by `List.zipWith` / `List.map`.
-/

/-- Result tuple of `GuessNumber.step`: `(observation, reward, terminated,
truncated, info)`.  The observation is the two-element list
`[hint, previous_action]` (hint codes: 0 start, 1 too low, 2 correct,
3 too high).  The source interpolates the guessed number into the info
string; the info text is kept here without the interpolated number. -/
structure StepResult where
  obs : List ℤ
  reward : ℤ
  terminated : Bool
  truncated : Bool
  info : String
  deriving DecidableEq, Repr

/-- State of the `GuessNumber` environment: `self.number` (the hidden target)
and `self.steps_without_winning`.  The latter attribute is not assigned in
`__init__`, only in `reset`, so it is modelled as an `Option` that is `none`
until `reset` first sets it. -/
structure GuessNumber where
  number : ℤ
  stepsWithoutWinning : Option ℤ
  deriving DecidableEq, Repr

/-- Embeds `GuessNumber.__init__`: `self.number = np.random.randint(100)`,
with the random draw passed explicitly; `steps_without_winning` is not set. -/
def GuessNumber.init (draw : ℤ) : GuessNumber :=
  { number := draw, stepsWithoutWinning := none }

/-- Embeds `GuessNumber.reset`: draws a new hidden number (passed explicitly),
returns observation `[0, 0]` and an info dict, and sets
`self.steps_without_winning = 0`.  The returned pair is
`((observation, info), post-state)`. -/
def GuessNumber.reset (_s : GuessNumber) (draw : ℤ) :
    (List ℤ × String) × GuessNumber :=
  (([0, 0], "New episode started"),
   { number := draw, stepsWithoutWinning := some 0 })

/-- Embeds `GuessNumber.step`.  The Python body assigns no attribute of
`self`, so the post-state returned here is the input state in every branch.
The action is an arbitrary integer: the source performs no check against the
declared action space `Discrete(100)`. -/
def GuessNumber.step (s : GuessNumber) (action : ℤ) :
    StepResult × GuessNumber :=
  if action < s.number then
    ({ obs := [1, action], reward := -1, terminated := false,
       truncated := false, info := "too low" }, s)
  else if action > s.number then
    ({ obs := [3, action], reward := -1, terminated := false,
       truncated := false, info := "too high" }, s)
  else
    ({ obs := [2, action], reward := 0, terminated := true,
       truncated := false, info := "Congratulations! You guessed the number" }, s)

/-- C1: for every hidden target and every guess, `step` returns
`terminated = true` iff the guess equals the target, the reward is `0` when
the step is terminal, and the reward is `-1` otherwise. -/
theorem guess_step_terminated_iff_reward (s : GuessNumber) (g : ℤ) :
    ((s.step g).1.terminated = true ↔ g = s.number) ∧
    ((s.step g).1.terminated = true → (s.step g).1.reward = 0) ∧
    ((s.step g).1.terminated = false → (s.step g).1.reward = -1) := by
  rcases lt_trichotomy g s.number with h | h | h
  · simp [GuessNumber.step, h, ne_of_lt h]
  · simp [GuessNumber.step, h]
  · simp [GuessNumber.step, h, not_lt_of_gt h, ne_of_gt h]

/-- C8: for every environment state and every action, the `truncated` flag
returned by `step` is `false`; the environment never truncates an episode. -/
theorem guess_step_truncated_false (s : GuessNumber) (a : ℤ) :
    (s.step a).1.truncated = false := by
  unfold GuessNumber.step
  split
  · rfl
  · split
    · rfl
    · rfl

/-- C10: `step` modifies no attribute of the environment (in particular the
hidden target is unchanged and `steps_without_winning` is not incremented),
and `reset` is the only operation that sets `steps_without_winning`, to `0`. -/
theorem guess_step_frame (s : GuessNumber) (a d : ℤ) :
    (s.step a).2 = s ∧
    (s.step a).2.number = s.number ∧
    (s.step a).2.stepsWithoutWinning = s.stepsWithoutWinning ∧
    (s.reset d).2.stepsWithoutWinning = some 0 := by
  refine ⟨?_, ?_, ?_, rfl⟩ <;>
    · unfold GuessNumber.step
      split
      · rfl
      · split
        · rfl
        · rfl

/-- C4 counterexample: with hidden target `50`, the action `150` is outside
the declared action range `0..99`, yet `step` reports no validation error:
it returns the ordinary observation `[3, 150]` with reward `-1` computed by
the comparison logic, exactly as for a valid too-high guess. -/
theorem guess_step_no_validation_counterexample :
    ¬((0 : ℤ) ≤ 150 ∧ (150 : ℤ) < 100) ∧
    (GuessNumber.step { number := 50, stepsWithoutWinning := none } 150).1 =
      { obs := [3, 150], reward := -1, terminated := false,
        truncated := false, info := "too high" } ∧
    (GuessNumber.step { number := 50, stepsWithoutWinning := none } 150).2 =
      { number := 50, stepsWithoutWinning := none } := by
  refine ⟨by decide, ?_, ?_⟩ <;> rfl

/-- C4 amended: `step` performs no validation of the action.  For any integer
action outside the declared range `0..99` it produces an ordinary
observation/reward result via the same comparison rules as for valid actions
(reward `-1` and non-terminal whenever the action differs from the target),
and the environment state is left unchanged — though the latter holds only
because `step` never mutates state at all, not because of any boundary
check. -/
theorem guess_step_no_validation (s : GuessNumber) (a : ℤ)
    (_h : ¬(0 ≤ a ∧ a < 100)) :
    (s.step a).2 = s ∧
    ((s.step a).1.terminated = true ↔ a = s.number) ∧
    (a ≠ s.number → (s.step a).1.reward = -1 ∧
      (s.step a).1.obs = [if a < s.number then 1 else 3, a]) := by
  rcases lt_trichotomy a s.number with h | h | h
  · simp [GuessNumber.step, h, ne_of_lt h]
  · simp [GuessNumber.step, h]
  · simp [GuessNumber.step, h, not_lt_of_gt h, ne_of_gt h]

/-- Witness for `guess_step_no_validation` at target `50`, action `150`. -/
theorem guess_step_no_validation_witness :
    (GuessNumber.step { number := 50, stepsWithoutWinning := none } 150).2 =
      { number := 50, stepsWithoutWinning := none } ∧
    ((GuessNumber.step { number := 50, stepsWithoutWinning := none }
        150).1.terminated = true ↔ (150 : ℤ) = 50) ∧
    ((150 : ℤ) ≠ 50 →
      (GuessNumber.step { number := 50, stepsWithoutWinning := none }
        150).1.reward = -1 ∧
      (GuessNumber.step { number := 50, stepsWithoutWinning := none }
        150).1.obs = [if (150 : ℤ) < 50 then 1 else 3, 150]) :=
  guess_step_no_validation { number := 50, stepsWithoutWinning := none } 150
    (by decide)

noncomputable section

/-- Three-list analogue of `List.zipWith`, used to model elementwise torch
operations combining three tensors of equal shape. -/
def zipWith3 {α β γ δ : Type*} (f : α → β → γ → δ) :
    List α → List β → List γ → List δ
  | a :: as, b :: bs, c :: cs => f a b c :: zipWith3 f as bs cs
  | _, _, _ => []

/-- Embeds `torch.clamp(x, lo, hi)`. -/
def clamp (x lo hi : ℝ) : ℝ := max lo (min x hi)

/-- Embeds boolean-mask tensor indexing `data_[mask]`: the elements of `data`
at the positions where `mask` is true. -/
def maskSelect (data : List ℝ) (mask : List Bool) : List ℝ :=
  ((data.zip mask).filter (fun p => p.2)).map (fun p => p.1)

/-- Embeds the local `possibly_masked_mean` of
`PPOTorchLearner.compute_loss_for_module`: when a loss mask is present, it is
`torch.sum(data_[mask]) / num_valid` with `num_valid = torch.sum(mask)`;
otherwise it is `torch.mean`. -/
def possibly_masked_mean (mask : Option (List Bool)) (data : List ℝ) : ℝ :=
  match mask with
  | some m => (maskSelect data m).sum / ((List.countP (fun b => b) m : ℕ) : ℝ)
  | none => data.sum / ((data.length : ℕ) : ℝ)

/-- Hyperparameters read by `compute_loss_for_module` from its `PPOConfig`
argument, plus the per-module KL coefficient
`self.curr_kl_coeffs_per_module[module_id]`. -/
structure PPOConfig where
  clip_param : ℝ
  vf_clip_param : ℝ
  vf_loss_coeff : ℝ
  use_critic : Bool
  use_kl_loss : Bool
  kl_coeff : ℝ

/-- Embeds `logp_ratio = torch.exp(curr_action_dist.logp(batch[ACTIONS]) -
batch[ACTION_LOGP])`: the elementwise exponential of the log-probability
difference (not a direct division of probabilities). -/
def logpRatios (currLogps oldLogps : List ℝ) : List ℝ :=
  List.zipWith (fun c o => Real.exp (c - o)) currLogps oldLogps

/-- Embeds `surrogate_loss = torch.min(advantages * logp_ratio, advantages *
torch.clamp(logp_ratio, 1 - clip_param, 1 + clip_param))`. -/
def surrogateLosses (advantages ratios : List ℝ) (clip : ℝ) : List ℝ :=
  List.zipWith
    (fun a r => min (a * r) (a * clamp r (1 - clip) (1 + clip)))
    advantages ratios

/-- Embeds `vf_loss = torch.pow(value_fn_out - batch[VALUE_TARGETS], 2.0)`. -/
def vfLosses (valueFnOut valueTargets : List ℝ) : List ℝ :=
  List.zipWith (fun v t => (v - t) ^ 2) valueFnOut valueTargets

/-- Embeds `PPOTorchLearner.compute_loss_for_module`.  The per-timestep
quantities produced by the module and the distributions — current-policy log
probabilities of the taken actions, behavior-policy log probabilities from the
batch, advantages, value-function outputs, value targets, current-policy
entropies, and the KL estimates — are passed as lists; the optional loss mask
models the presence of `Columns.LOSS_MASK` in the batch.  The quantities the
source computes only to log them (`mean_entropy`, `mean_vf_loss`,
`mean_vf_unclipped_loss`, explained variance) do not affect the returned
total loss and are not reproduced. -/
def compute_loss_for_module (cfg : PPOConfig) (entropy_coeff : ℝ)
    (mask : Option (List Bool))
    (currLogps oldLogps advantages valueFnOut valueTargets currEntropy
      actionKl : List ℝ) : ℝ :=
  let total_loss :=
    possibly_masked_mean mask
      (zipWith3
        (fun s v e => -s + cfg.vf_loss_coeff * v - entropy_coeff * e)
        (surrogateLosses advantages (logpRatios currLogps oldLogps)
          cfg.clip_param)
        (if cfg.use_critic then
          (vfLosses valueFnOut valueTargets).map
            (fun x => clamp x 0 cfg.vf_clip_param)
         else List.replicate advantages.length 0)
        currEntropy)
  if cfg.use_kl_loss then
    total_loss + cfg.kl_coeff * possibly_masked_mean mask actionKl
  else total_loss

/-- Formalises the spec's per-timestep surrogate: `min(advantage * r,
advantage * clamp(r, 1 - clip_epsilon, 1 + clip_epsilon))` with
`r = exp(current_log_prob(action) - old_log_prob)`. -/
def specSurrogate (clip a c o : ℝ) : ℝ :=
  min (a * Real.exp (c - o)) (a * clamp (Real.exp (c - o)) (1 - clip) (1 + clip))

/-- Formalises the spec's per-timestep clipped value loss: the squared error
between the predicted value and the value target, clipped at
`value_clip_epsilon`. -/
def specVfClippedLoss (vfclip v t : ℝ) : ℝ := clamp ((v - t) ^ 2) 0 vfclip

/-- Formalises the spec's total loss: the (possibly masked) mean over the
timesteps of `-min_surrogate + value_loss_coefficient * clipped_value_loss -
entropy_coefficient * entropy`, with each per-timestep term computed pointwise
from the batch entries. -/
def specTotalLoss (cfg : PPOConfig) (entropy_coeff : ℝ)
    (mask : Option (List Bool))
    (currLogps oldLogps advantages valueFnOut valueTargets
      currEntropy : List ℝ) : ℝ :=
  possibly_masked_mean mask
    (zipWith3
      (fun s v e => -s + cfg.vf_loss_coeff * v - entropy_coeff * e)
      (zipWith3 (fun a c o => specSurrogate cfg.clip_param a c o)
        advantages currLogps oldLogps)
      (if cfg.use_critic then
        List.zipWith (fun v t => specVfClippedLoss cfg.vf_clip_param v t)
          valueFnOut valueTargets
       else List.replicate advantages.length 0)
      currEntropy)

lemma zipWith_zipWith_right {α β γ δ ε : Type*} (f : α → β → γ)
    (g : δ → ε → β) :
    ∀ (as : List α) (bs : List δ) (cs : List ε),
      List.zipWith f as (List.zipWith g bs cs) =
        zipWith3 (fun a b c => f a (g b c)) as bs cs
  | [], _, _ => by simp [zipWith3]
  | _ :: _, [], _ => by simp [zipWith3]
  | _ :: _, _ :: _, [] => by simp [zipWith3]
  | a :: as, b :: bs, c :: cs => by
      simp only [List.zipWith, zipWith3]
      exact congrArg _ (zipWith_zipWith_right f g as bs cs)

lemma surrogate_stage (clip : ℝ) (advantages currLogps oldLogps : List ℝ) :
    surrogateLosses advantages (logpRatios currLogps oldLogps) clip =
      zipWith3 (fun a c o => specSurrogate clip a c o)
        advantages currLogps oldLogps := by
  unfold surrogateLosses logpRatios specSurrogate
  exact zipWith_zipWith_right _ _ _ _ _

lemma vf_stage (vfclip : ℝ) (valueFnOut valueTargets : List ℝ) :
    (vfLosses valueFnOut valueTargets).map (fun x => clamp x 0 vfclip) =
      List.zipWith (fun v t => specVfClippedLoss vfclip v t)
        valueFnOut valueTargets := by
  unfold vfLosses specVfClippedLoss
  rw [List.map_zipWith]

lemma compute_loss_eq_spec_total (cfg : PPOConfig)
    (hkl : cfg.use_kl_loss = false) (ec : ℝ) (mask : Option (List Bool))
    (currLogps oldLogps advantages valueFnOut valueTargets currEntropy
      actionKl : List ℝ) :
    compute_loss_for_module cfg ec mask currLogps oldLogps advantages
        valueFnOut valueTargets currEntropy actionKl =
      specTotalLoss cfg ec mask currLogps oldLogps advantages valueFnOut
        valueTargets currEntropy := by
  unfold compute_loss_for_module specTotalLoss
  rw [hkl, surrogate_stage, vf_stage]
  simp

/-- C2: inside the loss computation, the per-timestep policy surrogate equals
`min(advantage * r, advantage * clamp(r, 1 - clip_epsilon, 1 + clip_epsilon))`
where the ratio `r` is `exp(current_log_prob(action) - old_log_prob)`, an
exponential of a log-difference. -/
theorem surrogate_per_timestep_formula (clip : ℝ)
    (advantages currLogps oldLogps : List ℝ) :
    surrogateLosses advantages (logpRatios currLogps oldLogps) clip =
      zipWith3 (fun a c o => specSurrogate clip a c o)
        advantages currLogps oldLogps :=
  surrogate_stage clip advantages currLogps oldLogps

/-- C3: with the KL term disabled (as throughout the notebook), the scalar
returned by the loss computation equals the possibly-masked mean over the
timesteps of `-min_surrogate + value_loss_coefficient * clipped_value_loss -
entropy_coefficient * entropy`. -/
theorem total_loss_is_masked_mean (cfg : PPOConfig)
    (hkl : cfg.use_kl_loss = false) (ec : ℝ) (mask : Option (List Bool))
    (currLogps oldLogps advantages valueFnOut valueTargets currEntropy
      actionKl : List ℝ) :
    compute_loss_for_module cfg ec mask currLogps oldLogps advantages
        valueFnOut valueTargets currEntropy actionKl =
      specTotalLoss cfg ec mask currLogps oldLogps advantages valueFnOut
        valueTargets currEntropy :=
  compute_loss_eq_spec_total cfg hkl ec mask currLogps oldLogps advantages
    valueFnOut valueTargets currEntropy actionKl

/-- Witness for `total_loss_is_masked_mean` on a concrete two-timestep
batch. -/
theorem total_loss_is_masked_mean_witness :
    compute_loss_for_module
        { clip_param := 3/10, vf_clip_param := 10, vf_loss_coeff := 1/2,
          use_critic := true, use_kl_loss := false, kl_coeff := 1/5 }
        (1/100) (some [true, false]) [1, 2] [3, 4] [5, 6] [7, 8] [9, 10]
        [11, 12] [] =
      specTotalLoss
        { clip_param := 3/10, vf_clip_param := 10, vf_loss_coeff := 1/2,
          use_critic := true, use_kl_loss := false, kl_coeff := 1/5 }
        (1/100) (some [true, false]) [1, 2] [3, 4] [5, 6] [7, 8] [9, 10]
        [11, 12] :=
  total_loss_is_masked_mean _ rfl (1/100) (some [true, false]) [1, 2] [3, 4]
    [5, 6] [7, 8] [9, 10] [11, 12] []

lemma pmm_some (m : List Bool) (data : List ℝ) :
    possibly_masked_mean (some m) data =
      (maskSelect data m).sum / ((List.countP (fun b => b) m : ℕ) : ℝ) := rfl

lemma maskSelect_cons (d : ℝ) (ds : List ℝ) (b : Bool) (bs : List Bool) :
    maskSelect (d :: ds) (b :: bs) =
      if b then d :: maskSelect ds bs else maskSelect ds bs := by
  cases b <;> simp [maskSelect]

lemma maskSelect_sum_eq : ∀ (data : List ℝ) (m : List Bool),
    (maskSelect data m).sum =
      (List.zipWith (fun d b => if b then d else 0) data m).sum
  | [], _ => by simp [maskSelect]
  | _ :: _, [] => by simp [maskSelect]
  | d :: ds, b :: bs => by
      rw [maskSelect_cons]
      cases b <;> simp [maskSelect_sum_eq ds bs]

/-- Formalises the spec's masked mean: masked-out timesteps contribute
nothing to the sum, and the divisor is the count of unmasked timesteps. -/
def specMaskedMean (m : List Bool) (data : List ℝ) : ℝ :=
  (List.zipWith (fun d b => if b then d else 0) data m).sum /
    ((List.countP (fun b => b) m : ℕ) : ℝ)

/-- C5: for a batch with at least one unmasked timestep, the masked mean used
by the loss computation excludes masked-out timesteps from the sum and
divides by the count of unmasked timesteps. -/
theorem masked_mean_excludes_masked (m : List Bool) (data : List ℝ)
    (_h : 0 < List.countP (fun b => b) m) :
    possibly_masked_mean (some m) data = specMaskedMean m data := by
  rw [pmm_some]
  unfold specMaskedMean
  rw [maskSelect_sum_eq]

/-- Witness for `masked_mean_excludes_masked`: with mask `[true, false]` over
values `[4, 100]` the masked mean is `4`. -/
theorem masked_mean_excludes_masked_witness :
    possibly_masked_mean (some [true, false]) [(4 : ℝ), 100] = 4 := by
  have h := masked_mean_excludes_masked [true, false] [(4 : ℝ), 100]
    (by decide)
  rw [h]
  unfold specMaskedMean
  norm_num

lemma maskSelect_eq_nil : ∀ (data : List ℝ) (m : List Bool),
    (∀ b ∈ m, b = false) → maskSelect data m = []
  | [], _, _ => by simp [maskSelect]
  | _ :: _, [], _ => by simp [maskSelect]
  | d :: ds, b :: bs, h => by
      have hb : b = false := h b (by simp)
      rw [maskSelect_cons, hb]
      exact maskSelect_eq_nil ds bs (fun x hx => h x (by simp [hx]))

lemma pmm_all_false (m : List Bool)
    (h : List.countP (fun b => b) m = 0) (data : List ℝ) :
    possibly_masked_mean (some m) data = 0 := by
  have hall : ∀ b ∈ m, b = false := by
    intro b hb
    have := (List.countP_eq_zero).1 h b hb
    simpa using this
  rw [pmm_some, maskSelect_eq_nil data m hall]
  simp

/-- C6 counterexample: on a fully masked two-timestep batch the loss
computation does not fail; `num_valid` is `0`, the masked sum is the empty
sum `0`, and the evaluator returns the value of the unguarded division `0/0`
(`0` under the real-field convention; `NaN` in the float implementation)
rather than raising an arithmetic error. -/
theorem all_masked_counterexample :
    List.countP (fun b => b) [false, false] = 0 ∧
    compute_loss_for_module
        { clip_param := 1/5, vf_clip_param := 10, vf_loss_coeff := 1,
          use_critic := true, use_kl_loss := false, kl_coeff := 0 }
        (1/100) (some [false, false]) [1, 2] [3, 4] [5, 6] [7, 8] [9, 10]
        [11, 12] [] = 0 := by
  refine ⟨by decide, ?_⟩
  simp [compute_loss_for_module, possibly_masked_mean, maskSelect,
    surrogateLosses, logpRatios, vfLosses, zipWith3, clamp]

/-- C6 amended: when every timestep of the batch is masked out, the loss
computation performs no zero-check: the masked selection is empty, the
divisor `num_valid` is `0`, and the evaluator returns the result of the
division-by-zero (here `0`, the real-field convention; `NaN` in the float
implementation) instead of failing with an arithmetic error. -/
theorem all_masked_no_error (cfg : PPOConfig) (ec : ℝ) (m : List Bool)
    (h : List.countP (fun b => b) m = 0)
    (currLogps oldLogps advantages valueFnOut valueTargets currEntropy
      actionKl : List ℝ) :
    compute_loss_for_module cfg ec (some m) currLogps oldLogps advantages
      valueFnOut valueTargets currEntropy actionKl = 0 := by
  simp [compute_loss_for_module, pmm_all_false m h]

/-- Witness for `all_masked_no_error` on a concrete three-timestep batch with
the KL term enabled. -/
theorem all_masked_no_error_witness :
    compute_loss_for_module
        { clip_param := 3/10, vf_clip_param := 5, vf_loss_coeff := 2,
          use_critic := false, use_kl_loss := true, kl_coeff := 1 }
        1 (some [false, false, false]) [1, 2, 3] [4, 5, 6] [7, 8, 9]
        [10, 11, 12] [13, 14, 15] [16, 17, 18] [19] = 0 :=
  all_masked_no_error _ 1 [false, false, false] (by decide)
    [1, 2, 3] [4, 5, 6] [7, 8, 9] [10, 11, 12] [13, 14, 15] [16, 17, 18] [19]

/-- C7 counterexample: with `clip_epsilon = 2`, outside the open interval
`(0, 1)`, the loss computation raises no domain error: on a one-timestep
batch with ratio `1` and advantage `3` it returns the ordinary loss value
`-3`. -/
theorem clip_eps_no_domain_check_counterexample :
    ¬((0 : ℝ) < 2 ∧ (2 : ℝ) < 1) ∧
    compute_loss_for_module
        { clip_param := 2, vf_clip_param := 10, vf_loss_coeff := 1/2,
          use_critic := false, use_kl_loss := false, kl_coeff := 0 }
        0 none [0] [0] [3] [] [] [5] [] = -3 := by
  refine ⟨by norm_num, ?_⟩
  norm_num [compute_loss_for_module, possibly_masked_mean, surrogateLosses,
    logpRatios, vfLosses, zipWith3, clamp, Real.exp_zero]

/-- C7 amended: the loss computation performs no validation of
`clip_epsilon`: for any value outside `(0, 1)` it still computes and returns
the loss, with clamp bounds `1 - clip_epsilon` and `1 + clip_epsilon` as
usual (the KL term being disabled as throughout the notebook). -/
theorem clip_eps_no_domain_check (cfg : PPOConfig)
    (_h : ¬(0 < cfg.clip_param ∧ cfg.clip_param < 1))
    (hkl : cfg.use_kl_loss = false) (ec : ℝ) (mask : Option (List Bool))
    (currLogps oldLogps advantages valueFnOut valueTargets currEntropy
      actionKl : List ℝ) :
    compute_loss_for_module cfg ec mask currLogps oldLogps advantages
        valueFnOut valueTargets currEntropy actionKl =
      specTotalLoss cfg ec mask currLogps oldLogps advantages valueFnOut
        valueTargets currEntropy :=
  compute_loss_eq_spec_total cfg hkl ec mask currLogps oldLogps advantages
    valueFnOut valueTargets currEntropy actionKl

/-- Witness for `clip_eps_no_domain_check` at `clip_epsilon = 2`. -/
theorem clip_eps_no_domain_check_witness :
    compute_loss_for_module
        { clip_param := 2, vf_clip_param := 10, vf_loss_coeff := 1/2,
          use_critic := false, use_kl_loss := false, kl_coeff := 0 }
        0 none [0] [0] [3] [] [] [5] [] =
      specTotalLoss
        { clip_param := 2, vf_clip_param := 10, vf_loss_coeff := 1/2,
          use_critic := false, use_kl_loss := false, kl_coeff := 0 }
        0 none [0] [0] [3] [] [] [5] :=
  clip_eps_no_domain_check _ (by norm_num) rfl 0 none [0] [0] [3] [] [] [5] []

/-- C9: for every advantage and every `clip_epsilon` in `(0, 1)`, when the
probability ratio is exactly `1 + clip_epsilon` the clipped surrogate
`advantage * clamp(r, 1 - clip_epsilon, 1 + clip_epsilon)` equals the
unclipped surrogate `advantage * r`: the clamp bounds are inclusive. -/
theorem clamp_boundary_inclusive (adv eps : ℝ) (h0 : 0 < eps)
    (_h1 : eps < 1) :
    adv * clamp (1 + eps) (1 - eps) (1 + eps) = adv * (1 + eps) := by
  have hle : 1 - eps ≤ 1 + eps := by linarith
  unfold clamp
  rw [min_self, max_eq_right hle]

/-- Witness for `clamp_boundary_inclusive` at advantage `7`,
`clip_epsilon = 1/2`. -/
theorem clamp_boundary_inclusive_witness :
    (7 : ℝ) * clamp (1 + 1/2) (1 - 1/2) (1 + 1/2) = 7 * (1 + 1/2) :=
  clamp_boundary_inclusive 7 (1/2) (by norm_num) (by norm_num)

end
